import Mathlib

/-!
Verification of the console driver in `teuthology/orchestra/console.py`.

The physical console drives an external `ipmitool` process through an
interactive pexpect session.  We embed the code as pure functions over an
explicit state: a script of session outcomes (one per `expect` call, the
environment's choice), a wall clock, and a trace of observable events
(process spawns, sends, expect results, sleeps, log lines).  Machine
behaviour that the code cannot observe beyond the three-way
match/timeout/EOF result is supplied by the script; when the script is
exhausted every further expect behaves as a timeout (no further output
ever arrives).  Python exceptions are modelled with `Except`.
-/

/-- Outcome of one `expect` call on a spawned session, chosen by the
environment: the (single) text pattern of the call matched after `elapsed`
time units, the wait timed out, or the stream closed after `elapsed`. -/
inductive SessionResult where
  | matched (elapsed : Nat)
  | timedOut
  | eof (elapsed : Nat)
deriving DecidableEq

/-- One entry of the pattern list handed to `child.expect`: a text pattern,
or one of the pexpect sentinels `pexpect.TIMEOUT` / `pexpect.EOF`. -/
inductive Pat where
  | text (s : String)
  | pTimeout
  | pEOF
deriving DecidableEq

def Pat.isText : Pat → Bool
  | .text _ => true
  | _ => false

def Pat.isTimeoutPat : Pat → Bool
  | .pTimeout => true
  | _ => false

def Pat.isEofPat : Pat → Bool
  | .pEOF => true
  | _ => false

/-- Exceptions that can escape the physical console operations:
`pexpect.TIMEOUT`, `pexpect.EOF` (raised by `expect` when the respective
sentinel is not in the pattern list), and `ConsoleError` raised by
`_wait_for_login`. -/
inductive ConsoleErr where
  | pexpectTimeout
  | pexpectEOF
  | consoleError
deriving DecidableEq

instance {ε α : Type} [DecidableEq ε] [DecidableEq α] : DecidableEq (Except ε α) := fun a b =>
  match a, b with
  | .ok x, .ok y => if h : x = y then .isTrue (by rw [h]) else .isFalse (by simp [h])
  | .error x, .error y => if h : x = y then .isTrue (by rw [h]) else .isFalse (by simp [h])
  | .ok _, .error _ => .isFalse (by simp)
  | .error _, .ok _ => .isFalse (by simp)

/-- Observable events of a run.  `spawn` records the ipmitool subcommand
passed to `_pexpect_spawn` (the full command line it expands to is
`build_command`, settled separately);  `expected` records one `expect` call:
its pattern list, the timeout it was given, and its result. -/
inductive Event where
  | spawn (cmd : String)
  | send (s : String)
  | expected (pats : List Pat) (tmo : Nat) (r : Except ConsoleErr Nat)
  | slept (d : Nat)
  | logErr (msg : String)
  | logInfo (msg : String)
deriving DecidableEq

/-- An event stamped with the wall-clock time at which it happened
(for `expected`, the time the call returned). -/
structure TEvent where
  time : Nat
  ev : Event
deriving DecidableEq

/-- State threaded through the embedded code: the remaining outcome script,
the wall clock (`time.time()`), and the event trace so far. -/
structure PState where
  script : List SessionResult
  clock : Nat
  trace : List TEvent
deriving DecidableEq

def initState (script : List SessionResult) : PState :=
  { script := script, clock := 0, trace := [] }

def emit (s : PState) (e : Event) : PState :=
  { s with trace := s.trace ++ [⟨s.clock, e⟩] }

/-- Model of `time.sleep(d)`. -/
def doSleep (d : Nat) (s : PState) : PState :=
  { script := s.script, clock := s.clock + d, trace := s.trace ++ [⟨s.clock, .slept d⟩] }

/-- Python `a or b` on an optional number: `None` and `0` are falsy. -/
def pyOrNat (a : Option Nat) (b : Nat) : Nat :=
  match a with
  | none => b
  | some n => if n = 0 then b else n

/-- Python `a or b` on an optional string: `None` and `""` are falsy. -/
def pyOrStr (a b : Option String) : Option String :=
  match a with
  | none => b
  | some s => if s = "" then b else some s

/-- Dispatch of pexpect when the deadline is reached: if `pexpect.TIMEOUT`
is in the pattern list its index is returned, otherwise the TIMEOUT
exception is raised; either way the full timeout has elapsed. -/
def timeoutCase (pats : List Pat) (tmo : Nat) : Except ConsoleErr Nat × Nat :=
  match pats.findIdx? Pat.isTimeoutPat with
  | some i => (.ok i, tmo)
  | none => (.error .pexpectTimeout, tmo)

/-- Dispatch of one `child.expect(pats, timeout=tmo)` given the scripted
outcome: a text match or an EOF that would only occur after the deadline
behaves as a timeout; an EOF is reported at the sentinel index when
`pexpect.EOF` is listed and raised otherwise.  The second component is the
elapsed time of the call. -/
def expectResult (pats : List Pat) (tmo : Nat) (o : SessionResult) :
    Except ConsoleErr Nat × Nat :=
  match o with
  | .matched e =>
    if e ≤ tmo then
      match pats.findIdx? Pat.isText with
      | some i => (.ok i, e)
      | none => timeoutCase pats tmo
    else timeoutCase pats tmo
  | .timedOut => timeoutCase pats tmo
  | .eof e =>
    if e ≤ tmo then
      match pats.findIdx? Pat.isEofPat with
      | some i => (.ok i, e)
      | none => (.error .pexpectEOF, e)
    else timeoutCase pats tmo

/-- One `child.expect(pats, timeout=tmo)`: consume the next scripted
outcome (an exhausted script behaves as a timeout), advance the clock by
the elapsed time, and record the call in the trace. -/
def expectCall (pats : List Pat) (tmo : Nat) (s : PState) :
    Except ConsoleErr Nat × PState :=
  let r := expectResult pats tmo (s.script.headD .timedOut)
  (r.1, { script := s.script.tail, clock := s.clock + r.2,
          trace := s.trace ++ [⟨s.clock + r.2, .expected pats tmo r.1⟩] })

/-- Resolved credential configuration consumed from `.teuthology.yaml`
(an external collaborator; the core only reads these three fields). -/
structure IpmiConfig where
  ipmi_user : Option String
  ipmi_password : Option String
  ipmi_domain : Option String
deriving DecidableEq

/-- The physical console: host name, short name (name normalisation is an
out-of-scope collaborator, so the short name is taken as an input),
timeout, the three resolved credentials and the presence flag computed at
construction. -/
structure PhysicalConsole where
  name : String
  shortname : String
  timeout : Nat
  ipmiuser : Option String
  ipmipass : Option String
  ipmidomain : Option String
  has_ipmi_credentials : Bool
deriving DecidableEq

/-- Embedding of `PhysicalConsole.__init__`: each credential argument is
resolved against the config with Python `or`, and the presence flag is
`all(x is not None for x in [user, pass, domain])`, computed once here. -/
def mkPhysicalConsole (name shortname : String)
    (ipmiuser ipmipass ipmidomain : Option String)
    (cfg : IpmiConfig) (timeout : Nat) : PhysicalConsole :=
  let u := pyOrStr ipmiuser cfg.ipmi_user
  let p := pyOrStr ipmipass cfg.ipmi_password
  let d := pyOrStr ipmidomain cfg.ipmi_domain
  { name := name, shortname := shortname, timeout := timeout,
    ipmiuser := u, ipmipass := p, ipmidomain := d,
    has_ipmi_credentials := u.isSome && p.isSome && d.isSome }

/-- Python `str()` of an optional string as used by `str.format`: `None`
formats as "None". -/
def optStr (o : Option String) : String := o.getD "None"

/-- Embedding of `_build_command`: the literal template
`ipmitool -H ...` with each field substituted once by `str.format`; on this
fixed template that is the concatenation below. -/
def PhysicalConsole.build_command (c : PhysicalConsole) (subcommand : String) : String :=
  "ipmitool -H " ++ c.shortname ++ "." ++ optStr c.ipmidomain ++
    " -I lanplus -U " ++ optStr c.ipmiuser ++ " -P " ++ optStr c.ipmipass ++
    " " ++ subcommand

/-- Modelled from the spec: the documented deterministic command template
`<client> -H <short_name>.<domain> -I lanplus -U <user> -P <password>
<subcommand>` with client `ipmitool`. -/
def specCommandTemplate (shortname dn user pw subcommand : String) : String :=
  "ipmitool" ++ " -H " ++ shortname ++ "." ++ dn ++ " -I lanplus" ++
    " -U " ++ user ++ " -P " ++ pw ++ " " ++ subcommand

/-- Embedding of `_pexpect_spawn`: `_check_credentials` logs (but does not
raise) when the presence flag is unset, then the child process is spawned.
The trace records the ipmitool subcommand. -/
def PhysicalConsole.pexpect_spawn (c : PhysicalConsole) (cmd : String) (s : PState) : PState :=
  let s1 := if c.has_ipmi_credentials then s
            else emit s (.logErr "Must set ipmi_user, ipmi_password, and ipmi_domain")
  emit s1 (.spawn cmd)

/-- Pattern list of the `expect` in `_exit_session`. -/
def exitPats : List Pat := [.text "terminated ipmitool", .pTimeout, .pEOF]

/-- Pattern list of the login `expect` in `_wait_for_login`. -/
def loginPats (c : PhysicalConsole) : List Pat :=
  [.text (c.shortname ++ " login: "), .pTimeout, .pEOF]

/-- Pattern list of the `expect` in `check_power` (note the sentinel order
differs from the login/exit expects: EOF before TIMEOUT). -/
def powerPats (state : String) : List Pat :=
  [.text ("Chassis Power is " ++ state), .pEOF, .pTimeout]

/-- Embedding of `_exit_session`: send the deactivation bytes, wait for the
`terminated ipmitool` acknowledgment (timeout defaulting to the console's),
and issue an out-of-band `sol deactivate` when it is not the match. -/
def PhysicalConsole.exit_session (c : PhysicalConsole) (tmo : Option Nat) (s : PState) : PState :=
  let s1 := emit s (.send "~.")
  let t := pyOrNat tmo c.timeout
  let r := expectCall exitPats t s1
  if r.1 = Except.ok 0 then r.2 else c.pexpect_spawn "sol deactivate" r.2

theorem emit_script (s : PState) (e : Event) : (emit s e).script = s.script := rfl

theorem emit_clock (s : PState) (e : Event) : (emit s e).clock = s.clock := rfl

theorem pexpect_spawn_script (c : PhysicalConsole) (cmd : String) (s : PState) :
    (c.pexpect_spawn cmd s).script = s.script := by
  unfold PhysicalConsole.pexpect_spawn
  split <;> rfl

theorem pexpect_spawn_clock (c : PhysicalConsole) (cmd : String) (s : PState) :
    (c.pexpect_spawn cmd s).clock = s.clock := by
  unfold PhysicalConsole.pexpect_spawn
  split <;> rfl

theorem expectCall_script (pats : List Pat) (tmo : Nat) (s : PState) :
    (expectCall pats tmo s).2.script = s.script.tail := rfl

theorem expectCall_clock (pats : List Pat) (tmo : Nat) (s : PState) :
    (expectCall pats tmo s).2.clock
      = s.clock + (expectResult pats tmo (s.script.headD .timedOut)).2 := rfl

theorem expectCall_clock_le (pats : List Pat) (tmo : Nat) (s : PState) :
    s.clock ≤ (expectCall pats tmo s).2.clock := Nat.le_add_right _ _

theorem timeoutCase_elapsed (pats : List Pat) (tmo : Nat) :
    (timeoutCase pats tmo).2 = tmo := by
  unfold timeoutCase
  split <;> rfl

theorem expectResult_elapsed_le (pats : List Pat) (tmo : Nat) (o : SessionResult) :
    (expectResult pats tmo o).2 ≤ tmo := by
  cases o with
  | matched e =>
    simp only [expectResult]
    by_cases h : e ≤ tmo
    · rw [if_pos h]
      cases hf : pats.findIdx? Pat.isText with
      | some i => exact h
      | none => simp [timeoutCase_elapsed]
    · rw [if_neg h]; simp [timeoutCase_elapsed]
  | timedOut => simp [expectResult, timeoutCase_elapsed]
  | eof e =>
    simp only [expectResult]
    by_cases h : e ≤ tmo
    · rw [if_pos h]
      cases hf : pats.findIdx? Pat.isEofPat with
      | some i => exact h
      | none => exact h
    · rw [if_neg h]; simp [timeoutCase_elapsed]

theorem expectCall_nil_clock (pats : List Pat) (tmo : Nat) (s : PState)
    (h : s.script = []) : (expectCall pats tmo s).2.clock = s.clock + tmo := by
  rw [expectCall_clock, h]
  simp [expectResult, timeoutCase_elapsed]

theorem exit_session_script (c : PhysicalConsole) (tmo : Option Nat) (s : PState) :
    (c.exit_session tmo s).script = s.script.tail := by
  by_cases hc : (expectCall exitPats (pyOrNat tmo c.timeout) (emit s (Event.send "~."))).1
      = Except.ok 0
  · simp [PhysicalConsole.exit_session, hc, expectCall_script, emit_script]
  · simp [PhysicalConsole.exit_session, hc, pexpect_spawn_script, expectCall_script, emit_script]

theorem exit_session_clock_le (c : PhysicalConsole) (tmo : Option Nat) (s : PState) :
    s.clock ≤ (c.exit_session tmo s).clock := by
  have h1 := expectCall_clock_le exitPats (pyOrNat tmo c.timeout) (emit s (Event.send "~."))
  by_cases hc : (expectCall exitPats (pyOrNat tmo c.timeout) (emit s (Event.send "~."))).1
      = Except.ok 0
  · simp only [PhysicalConsole.exit_session, hc, if_true, eq_self_iff_true]
    exact h1
  · simp only [PhysicalConsole.exit_session, hc, if_false, pexpect_spawn_clock]
    exact h1

theorem login_step_decreases (c : PhysicalConsole) (deadline : Nat) (s s4 : PState)
    (hlt : s.clock < deadline)
    (h4 : s4 = c.exit_session none
        (expectCall (loginPats c)
          (deadline - (emit (c.pexpect_spawn "sol activate" s) (.send "\n")).clock)
          (emit (c.pexpect_spawn "sol activate" s) (.send "\n"))).2) :
    s4.script.length < s.script.length
    ∨ (s4.script.length = s.script.length ∧ deadline - s4.clock < deadline - s.clock) := by
  have hs2c : (emit (c.pexpect_spawn "sol activate" s) (.send "\n")).clock = s.clock := by
    rw [emit_clock, pexpect_spawn_clock]
  have hs2s : (emit (c.pexpect_spawn "sol activate" s) (.send "\n")).script = s.script := by
    rw [emit_script, pexpect_spawn_script]
  by_cases hnil : s.script = []
  · right
    constructor
    · rw [h4, exit_session_script, expectCall_script, hs2s, hnil]
      rfl
    · have hrc : (expectCall (loginPats c)
          (deadline - (emit (c.pexpect_spawn "sol activate" s) (.send "\n")).clock)
          (emit (c.pexpect_spawn "sol activate" s) (.send "\n"))).2.clock
          = s.clock + (deadline - s.clock) := by
        rw [expectCall_nil_clock _ _ _ (by rw [hs2s]; exact hnil), hs2c]
      have hec := exit_session_clock_le c none
        (expectCall (loginPats c)
          (deadline - (emit (c.pexpect_spawn "sol activate" s) (.send "\n")).clock)
          (emit (c.pexpect_spawn "sol activate" s) (.send "\n"))).2
      rw [h4]
      omega
  · left
    rw [h4, exit_session_script, expectCall_script, hs2s]
    have hpos : 0 < s.script.length := List.length_pos.mpr hnil
    simp only [List.length_tail]
    omega

/-- Inner while loop of `_wait_for_login` for one attempt: while the
deadline (entry clock plus the per-attempt timeout) has not passed, spawn
`sol activate`, send a wake newline, wait for the login prompt with the
remaining time as the expect timeout, always exit the session, and return
success exactly on a prompt match. -/
def PhysicalConsole.login_attempt (c : PhysicalConsole) (deadline : Nat) (s : PState) :
    Bool × PState :=
  if s.clock < deadline then
    let s2 := emit (c.pexpect_spawn "sol activate" s) (.send "\n")
    let r := expectCall (loginPats c) (deadline - s2.clock) s2
    let s4 := c.exit_session none r.2
    if r.1 = Except.ok 0 then (true, s4)
    else c.login_attempt deadline s4
  else (false, s)
termination_by (s.script.length, deadline - s.clock)
decreasing_by
  rcases login_step_decreases c deadline s _ (by assumption) rfl with h | ⟨h1, h2⟩
  · exact Prod.Lex.left _ _ h
  · rw [h1]
    exact Prod.Lex.right _ h2

/-- Outer for-loop of `_wait_for_login` over the retry budget; each
attempt samples a fresh start time.  Exhausting all attempts raises
ConsoleError ("Did not get a login prompt"). -/
def PhysicalConsole.wait_for_login_go (c : PhysicalConsole) (t : Nat) :
    Nat → PState → Except ConsoleErr Unit × PState
  | 0, s => (.error .consoleError, s)
  | n + 1, s =>
    let r := c.login_attempt (s.clock + t) s
    if r.1 then (.ok (), r.2)
    else c.wait_for_login_go t n r.2

/-- Embedding of `_wait_for_login(timeout, attempts)`; the per-attempt
timeout falls back to the console default through Python `or`. -/
def PhysicalConsole.wait_for_login (c : PhysicalConsole) (tmo : Option Nat) (attempts : Nat)
    (s : PState) : Except ConsoleErr Unit × PState :=
  c.wait_for_login_go (pyOrNat tmo c.timeout) attempts s

/-- `_wait_for_login` with its default retry budget of 2 attempts. -/
def PhysicalConsole.wait_for_login_default (c : PhysicalConsole) (tmo : Option Nat)
    (s : PState) : Except ConsoleErr Unit × PState :=
  c.wait_for_login tmo 2 s

/-- While-loop of `check_power`: per-attempt expect bound `t` (starting at
1 and doubling), accumulated budget `total`, and `ta`, the clock sample
taken right after the previous expect returned.  On EOF before the bound
is spent, the remainder is slept out.  The proof argument records that the
wait bound is positive, which the doubling preserves. -/
def PhysicalConsole.check_power_go (c : PhysicalConsole) (state : String) (timeout : Nat)
    (t total ta : Nat) (ht : 0 < t) (s : PState) : Bool × PState :=
  if total < timeout then
    let r := expectCall (powerPats state) t (c.pexpect_spawn "power status" s)
    let tb := r.2.clock
    if r.1 = Except.ok 0 then (true, r.2)
    else
      let s3 := if r.1 = Except.ok 1 then
                  (if tb - ta < t then doSleep (t - (tb - ta)) r.2 else r.2)
                else r.2
      c.check_power_go state timeout (t * 2) (total + t * 2) tb (by omega) s3
  else (false, s)
termination_by timeout - total
decreasing_by omega

/-- Embedding of `check_power(state, timeout)`: the overall timeout falls
back to the console default, the wait bound and accumulated total start at
1, and `ta` starts at the current time. -/
def PhysicalConsole.check_power (c : PhysicalConsole) (state : String) (tmo : Option Nat)
    (s : PState) : Bool × PState :=
  c.check_power_go state (pyOrNat tmo c.timeout) 1 1 s.clock (by omega) s

/-- Embedding of `check_status`: True when the console reaches a login
prompt; the ConsoleError from login-wait exhaustion is caught and turned
into False plus a log line. -/
def PhysicalConsole.check_status (c : PhysicalConsole) (tmo : Option Nat) (s : PState) :
    Bool × PState :=
  let r := c.wait_for_login tmo 2 s
  match r.1 with
  | .ok _ => (true, r.2)
  | .error _ => (false, emit r.2 (.logInfo "Failed to get ipmi console status"))

theorem expectCall_ack_nil (a : String) (tmo : Nat) (s : PState) (h : s.script = []) :
    (expectCall [Pat.text a, Pat.pEOF] tmo s).1 = Except.error ConsoleErr.pexpectTimeout := by
  have : (expectCall [Pat.text a, Pat.pEOF] tmo s).1
      = (expectResult [Pat.text a, Pat.pEOF] tmo (s.script.headD .timedOut)).1 := rfl
  rw [this, h]
  simp [expectResult, timeoutCase, List.findIdx?, Pat.isTimeoutPat]

/-- Shared shape of the acknowledgment loops of `hard_reset`, `power_on`
and `power_off`: while the deadline (entry clock + console timeout) has
not passed, spawn the subcommand and wait, bounded by the console timeout,
for the acknowledgment text or EOF; break on the acknowledgment; a timeout
raises, since `pexpect.TIMEOUT` is not in the pattern list. -/
def PhysicalConsole.power_ack_loop (c : PhysicalConsole) (cmd ackText : String)
    (deadline : Nat) (s : PState) : Except ConsoleErr Unit × PState :=
  if s.clock < deadline then
    let r := expectCall [.text ackText, .pEOF] c.timeout (c.pexpect_spawn cmd s)
    match h : r.1 with
    | .error e => (.error e, r.2)
    | .ok 0 => (.ok (), r.2)
    | .ok (_ + 1) => c.power_ack_loop cmd ackText deadline r.2
  else (.ok (), s)
termination_by s.script.length
decreasing_by
  rw [expectCall_script, pexpect_spawn_script]
  by_cases hnil : s.script = []
  · rw [expectCall_ack_nil _ _ _ (by rw [pexpect_spawn_script]; exact hnil)] at h
    exact absurd h (by simp)
  · have hpos : 0 < s.script.length := List.length_pos.mpr hnil
    simp only [List.length_tail]
    omega

/-- Embedding of `power_cycle`: spawn `power cycle` and expect the cycle
acknowledgment as the only pattern (so a timeout or EOF raises), then wait
for login with timeout 300. -/
def PhysicalConsole.power_cycle (c : PhysicalConsole) (s : PState) :
    Except ConsoleErr Unit × PState :=
  let s1 := c.pexpect_spawn "power cycle" (emit s (.logInfo "Power cycling"))
  let r := expectCall [.text "Chassis Power Control: Cycle"] c.timeout s1
  match r.1 with
  | .error e => (.error e, r.2)
  | .ok _ =>
    let w := c.wait_for_login (some 300) 2 r.2
    match w.1 with
    | .error e => (.error e, w.2)
    | .ok _ => (.ok (), emit w.2 (.logInfo "Power cycle completed"))

/-- Embedding of `hard_reset`: the acknowledgment loop for `power reset`,
then `_wait_for_login()` with default arguments. -/
def PhysicalConsole.hard_reset (c : PhysicalConsole) (s : PState) :
    Except ConsoleErr Unit × PState :=
  let s0 := emit s (.logInfo "Performing hard reset")
  let r := c.power_ack_loop "power reset" "Chassis Power Control: Reset"
    (s0.clock + c.timeout) s0
  match r.1 with
  | .error e => (.error e, r.2)
  | .ok _ =>
    let w := c.wait_for_login none 2 r.2
    match w.1 with
    | .error e => (.error e, w.2)
    | .ok _ => (.ok (), emit w.2 (.logInfo "Hard reset completed"))

/-- Embedding of `power_on`: the acknowledgment loop for `power on`, then
`check_power('on')`; a failed confirmation is only logged. -/
def PhysicalConsole.power_on (c : PhysicalConsole) (s : PState) :
    Except ConsoleErr Unit × PState :=
  let s0 := emit s (.logInfo "Power on")
  let r := c.power_ack_loop "power on" "Chassis Power Control: Up/On"
    (s0.clock + c.timeout) s0
  match r.1 with
  | .error e => (.error e, r.2)
  | .ok _ =>
    let p := c.check_power "on" none r.2
    let s3 := if p.1 then p.2 else emit p.2 (.logErr "Failed to power on")
    (.ok (), emit s3 (.logInfo "Power on completed"))

/-- Embedding of `power_off`: the acknowledgment loop for `power off`,
then `check_power('off', 60)`; a failed confirmation is only logged. -/
def PhysicalConsole.power_off (c : PhysicalConsole) (s : PState) :
    Except ConsoleErr Unit × PState :=
  let s0 := emit s (.logInfo "Power off")
  let r := c.power_ack_loop "power off" "Chassis Power Control: Down/Off"
    (s0.clock + c.timeout) s0
  match r.1 with
  | .error e => (.error e, r.2)
  | .ok _ =>
    let p := c.check_power "off" (some 60) r.2
    let s3 := if p.1 then p.2 else emit p.2 (.logErr "Failed to power off")
    (.ok (), emit s3 (.logInfo "Power off completed"))

/-- Embedding of `power_off_for_interval(interval)`: one `power off` spawn
expecting the Down/Off acknowledgment as the only pattern, an
unconditional sleep for the interval, one `power on` spawn expecting the
Up/On acknowledgment, then `_wait_for_login()` with default arguments. -/
def PhysicalConsole.power_off_for_interval (c : PhysicalConsole) (interval : Nat)
    (s : PState) : Except ConsoleErr Unit × PState :=
  let s1 := c.pexpect_spawn "power off" (emit s (.logInfo "Power off for interval"))
  let r := expectCall [.text "Chassis Power Control: Down/Off"] c.timeout s1
  match r.1 with
  | .error e => (.error e, r.2)
  | .ok _ =>
    let s3 := c.pexpect_spawn "power on" (doSleep interval r.2)
    let r2 := expectCall [.text "Chassis Power Control: Up/On"] c.timeout s3
    match r2.1 with
    | .error e => (.error e, r2.2)
    | .ok _ =>
      let w := c.wait_for_login none 2 r2.2
      match w.1 with
      | .error e => (.error e, w.2)
      | .ok _ => (.ok (), emit w.2 (.logInfo "Power off for interval completed"))

/-- Python exceptions of the virtual-console paths. -/
inductive PyErr where
  | typeErr
  | attributeErr
  | unboundLocalErr
deriving DecidableEq

/-- A libvirt domain as the virtual console sees it: its name and the
state number reported as the first entry of the `info()` tuple. -/
structure Domain where
  name : String
  state : Nat
deriving DecidableEq

/-- libvirt domain-state constants used by the virtual console. -/
def VIR_DOMAIN_RUNNING : Nat := 1
def VIR_DOMAIN_BLOCKED : Nat := 2
def VIR_DOMAIN_PAUSED : Nat := 3

/-- The host-status record returned by the lock-status lookup, as far as
the virtual console inspects it: the `is_vm` flag and the `vm_host`
field, where `some n` models `vm_host = {'name': n}` and `none` models a
null `vm_host`, so that subscripting it raises TypeError. -/
structure StatusRecord where
  is_vm : Bool
  vm_host_name : Option String
deriving DecidableEq

/-- The virtual console: `connection = some h` models an opened libvirt
connection to physical host `h`; `none` means the attribute was never
assigned.  Likewise `vm_domain = none` means no domain was ever bound. -/
structure VirtualConsole where
  shortname : String
  connection : Option String
  vm_domain : Option Domain
deriving DecidableEq

/-- Embedding of `VirtualConsole.__init__` (after the libvirt import
check): inspect the status record inside `try/except TypeError`.  When
`is_vm` is true and `vm_host` is null, the subscript raises TypeError,
which is caught by a plain `return`, leaving connection and domain
unbound.  When `is_vm` is false the conditional assignment of `phys_host`
is skipped and the following `libvirt.open(phys_host)` raises an uncaught
UnboundLocalError.  Otherwise the connection is opened to the first
dot-component of the vm_host name and the first listed domain whose name
equals the short name is bound. -/
def virtualConsoleInit (shortname : String) (status : StatusRecord)
    (domains : List Domain) : Except PyErr VirtualConsole :=
  if status.is_vm then
    match status.vm_host_name with
    | none => .ok { shortname := shortname, connection := none, vm_domain := none }
    | some hostName =>
      let phys_host := (hostName.splitOn ".").headD ""
      .ok { shortname := shortname, connection := some phys_host,
            vm_domain := domains.find? (fun d => d.name == shortname) }
  else .error .unboundLocalErr

/-- Embedding of `VirtualConsole.check_power`: reading `self.vm_domain`
raises AttributeError when the attribute was never bound; otherwise the
code subscripts `self.vm_domain.info` — the bound method object itself,
not its call — which raises TypeError. -/
def VirtualConsole.check_power (c : VirtualConsole) : Except PyErr Bool :=
  match c.vm_domain with
  | none => .error .attributeErr
  | some _ => .error .typeErr

/-- Embedding of `VirtualConsole.check_status`: `self.vm_domain.info()[0]
== libvirt.VIR_DOMAIN_RUNNING` (this method does call `info()`). -/
def VirtualConsole.check_status (c : VirtualConsole) : Except PyErr Bool :=
  match c.vm_domain with
  | none => .error .attributeErr
  | some d => .ok (d.state == VIR_DOMAIN_RUNNING)

/-- Lifecycle actions on the hypervisor, for reporting what a virtual
power operation actually did. -/
inductive VirtAction where
  | destroy (domName : String)
  | create (domName : String)
deriving DecidableEq

/-- Embedding of `VirtualConsole.power_cycle`: the code evaluates
`self.vm_domain.info().destroy()` — `info()` returns the state tuple, and
tuples have no `destroy` attribute, so AttributeError is raised before
any lifecycle action reaches the hypervisor. -/
def VirtualConsole.power_cycle (c : VirtualConsole) : Except PyErr (List VirtAction) :=
  match c.vm_domain with
  | none => .error .attributeErr
  | some _ => .error .attributeErr

/-- Embedding of `VirtualConsole.hard_reset`: `self.vm_domain.info().destroy()`,
again an attribute lookup on the info tuple. -/
def VirtualConsole.hard_reset (c : VirtualConsole) : Except PyErr (List VirtAction) :=
  match c.vm_domain with
  | none => .error .attributeErr
  | some _ => .error .attributeErr

/-- Embedding of `VirtualConsole.power_on`: `self.vm_domain.info().create()`. -/
def VirtualConsole.power_on (c : VirtualConsole) : Except PyErr (List VirtAction) :=
  match c.vm_domain with
  | none => .error .attributeErr
  | some _ => .error .attributeErr

/-- Embedding of `VirtualConsole.power_off`: `self.vm_domain.info().destroy()`. -/
def VirtualConsole.power_off (c : VirtualConsole) : Except PyErr (List VirtAction) :=
  match c.vm_domain with
  | none => .error .attributeErr
  | some _ => .error .attributeErr

/-- Modelled from the spec: the virtual power operations as §4.7 and §6
document them — `power_cycle` calls the domain's `destroy()` then
`create()` directly and synchronously. -/
def specVirtualPowerCycle (c : VirtualConsole) : Except PyErr (List VirtAction) :=
  match c.vm_domain with
  | none => .error .attributeErr
  | some d => .ok [.destroy d.name, .create d.name]

/-- Number of trace events satisfying a predicate. -/
def countEv (p : Event → Bool) (tr : List TEvent) : Nat :=
  (tr.filter (fun te => p te.ev)).length

def isSpawnOf (cmd : String) : Event → Bool
  | .spawn c => c == cmd
  | _ => false

def isSendOf (str : String) : Event → Bool
  | .send s => s == str
  | _ => false

/-- Recognises the `expect` of `_exit_session` by its pattern list. -/
def isExitExpect : Event → Bool
  | .expected pats _ _ => decide (pats = exitPats)
  | _ => false

/-- Recognises an `_exit_session` expect whose result was not a match of
the `terminated ipmitool` acknowledgment. -/
def isFailedExitExpect : Event → Bool
  | .expected pats _ r => decide (pats = exitPats) && !(decide (r = Except.ok 0))
  | _ => false

/-- Timeouts handed to the `expect` calls recorded in a trace, in order. -/
def expectTmos (tr : List TEvent) : List Nat :=
  tr.filterMap (fun te => match te.ev with
    | .expected _ tmo _ => some tmo
    | _ => none)

/-- Sleep durations recorded in a trace, in order. -/
def sleepDurations (tr : List TEvent) : List Nat :=
  tr.filterMap (fun te => match te.ev with
    | .slept d => some d
    | _ => none)

/-- A concrete console (all credentials set, default timeout 20) used to
exercise the physical operations at specific inputs. -/
def cDemo : PhysicalConsole :=
  mkPhysicalConsole "ceph1.example.com" "ceph1" (some "u") (some "p") (some "d")
    ⟨none, none, none⟩ 20

/-- C7: for every subcommand, the command built for the external client is
exactly the documented template
`ipmitool -H <short_name>.<domain> -I lanplus -U <user> -P <password> <subcommand>`,
and the concrete instance of the claim evaluates to the exact documented
string. -/
theorem build_command_matches_template (c : PhysicalConsole) (subcommand : String) :
    (c.build_command subcommand
      = specCommandTemplate c.shortname (optStr c.ipmidomain) (optStr c.ipmiuser)
          (optStr c.ipmipass) subcommand)
    ∧ (mkPhysicalConsole "cephN.example.com" "cephN" (some "u") (some "p")
        (some "example.com") ⟨none, none, none⟩ 20).build_command "power status"
      = "ipmitool -H cephN.example.com -I lanplus -U u -P p power status" := by
  constructor
  · simp [PhysicalConsole.build_command, specCommandTemplate, String.append_assoc]
  · decide

/-- C8: `has_ipmi_credentials` is the value computed once by the
constructor, and it is true iff the three resolved credentials are all
non-null: unsetting any one of them forces the flag false, and setting
all three forces it true.  The flag is a plain field of the immutable
constructed record, so it cannot change during the console's lifetime. -/
theorem has_ipmi_credentials_iff (name shortname : String)
    (u p d : Option String) (cfg : IpmiConfig) (tmo : Nat) :
    ((mkPhysicalConsole name shortname u p d cfg tmo).has_ipmi_credentials
      = ((mkPhysicalConsole name shortname u p d cfg tmo).ipmiuser.isSome
          && ((mkPhysicalConsole name shortname u p d cfg tmo).ipmipass.isSome
          && (mkPhysicalConsole name shortname u p d cfg tmo).ipmidomain.isSome)))
    ∧ ((mkPhysicalConsole name shortname u p d cfg tmo).ipmiuser = none
        ∨ (mkPhysicalConsole name shortname u p d cfg tmo).ipmipass = none
        ∨ (mkPhysicalConsole name shortname u p d cfg tmo).ipmidomain = none →
        (mkPhysicalConsole name shortname u p d cfg tmo).has_ipmi_credentials = false)
    ∧ ((mkPhysicalConsole name shortname u p d cfg tmo).ipmiuser ≠ none →
        (mkPhysicalConsole name shortname u p d cfg tmo).ipmipass ≠ none →
        (mkPhysicalConsole name shortname u p d cfg tmo).ipmidomain ≠ none →
        (mkPhysicalConsole name shortname u p d cfg tmo).has_ipmi_credentials = true) := by
  refine ⟨?_, ?_, ?_⟩
  · simp [mkPhysicalConsole, Bool.and_assoc]
  · intro h
    rcases h with h | h | h <;> simp [mkPhysicalConsole] at h ⊢ <;> simp [h]
  · intro h1 h2 h3
    simp [mkPhysicalConsole] at h1 h2 h3 ⊢
    simp [Option.isSome_iff_ne_none, h1, h2, h3]

theorem has_ipmi_credentials_iff_witness :
    ((mkPhysicalConsole "n" "n" (some "u") none (some "d")
        ⟨none, none, none⟩ 20).has_ipmi_credentials = false)
    ∧ ((mkPhysicalConsole "n" "n" (some "u") (some "p") (some "d")
        ⟨none, none, none⟩ 20).has_ipmi_credentials = true) :=
  ⟨(has_ipmi_credentials_iff "n" "n" (some "u") none (some "d")
      ⟨none, none, none⟩ 20).2.1 (by decide),
   (has_ipmi_credentials_iff "n" "n" (some "u") (some "p") (some "d")
      ⟨none, none, none⟩ 20).2.2 (by decide) (by decide) (by decide)⟩

/-- C10: when the effective overall timeout of `check_power` (the argument
when truthy, else the console default) is at most the initial wait bound
of 1 time-unit, the call returns False immediately and leaves the state
untouched — in particular no session is spawned — because the accumulated
counter starts at 1 and the loop requires it to be strictly below the
timeout. -/
theorem check_power_timeout_le_one (c : PhysicalConsole) (state : String)
    (tmo : Option Nat) (s : PState) (h : pyOrNat tmo c.timeout ≤ 1) :
    c.check_power state tmo s = (false, s) := by
  have h2 : ¬(1 < pyOrNat tmo c.timeout) := Nat.not_lt.mpr h
  simp [PhysicalConsole.check_power, PhysicalConsole.check_power_go, h2]

theorem check_power_timeout_le_one_witness :
    pyOrNat (some 1) cDemo.timeout ≤ 1
    ∧ cDemo.check_power "on" (some 1) (initState [SessionResult.eof 0])
      = (false, initState [SessionResult.eof 0]) :=
  ⟨by decide, check_power_timeout_le_one cDemo "on" (some 1)
    (initState [SessionResult.eof 0]) (by decide)⟩

/-- C5 counterexample: constructing a VirtualConsole against a status
record with `is_vm = false` does not leave an inert console — the
conditional assignment of `phys_host` is skipped and the construction
raises an uncaught UnboundLocalError. -/
theorem virtual_console_is_vm_false_crashes :
    virtualConsoleInit "ceph1" ⟨false, some "host.example.com"⟩ []
      = Except.error PyErr.unboundLocalErr := rfl

/-- C5 (amended): with `is_vm = false` the construction raises an
unhandled UnboundLocalError; the inert no-domain console arises instead
when status inspection raises TypeError (a null `vm_host`), and even then
a subsequent `check_power` raises an unhandled AttributeError because
`vm_domain` was never bound. -/
theorem virtual_console_inert_behaviour :
    (virtualConsoleInit "ceph1" ⟨false, some "host.example.com"⟩ []
      = Except.error PyErr.unboundLocalErr)
    ∧ (virtualConsoleInit "ceph1" ⟨true, none⟩ []
      = Except.ok ⟨"ceph1", none, none⟩)
    ∧ (VirtualConsole.check_power ⟨"ceph1", none, none⟩
      = Except.error PyErr.attributeErr) := by
  refine ⟨rfl, rfl, rfl⟩

/-- C6: on a console with a bound domain, every virtual power operation
evaluates `self.vm_domain.info().<lifecycle>()` and therefore raises
AttributeError — the info tuple has no destroy/create attribute — instead
of calling the domain's destroy()/create() directly as documented (the
spec-modelled behaviour is shown for contrast). -/
theorem virtual_power_ops_act_on_info_tuple :
    (VirtualConsole.power_cycle ⟨"ceph1", some "host", some ⟨"ceph1", 1⟩⟩
      = Except.error PyErr.attributeErr)
    ∧ (VirtualConsole.hard_reset ⟨"ceph1", some "host", some ⟨"ceph1", 1⟩⟩
      = Except.error PyErr.attributeErr)
    ∧ (VirtualConsole.power_on ⟨"ceph1", some "host", some ⟨"ceph1", 1⟩⟩
      = Except.error PyErr.attributeErr)
    ∧ (VirtualConsole.power_off ⟨"ceph1", some "host", some ⟨"ceph1", 1⟩⟩
      = Except.error PyErr.attributeErr)
    ∧ (specVirtualPowerCycle ⟨"ceph1", some "host", some ⟨"ceph1", 1⟩⟩
      = Except.ok [VirtAction.destroy "ceph1", VirtAction.create "ceph1"]) := by
  refine ⟨rfl, rfl, rfl, rfl, rfl⟩

def isLogErr : Event → Bool
  | .logErr _ => true
  | _ => false

/-- C1 counterexample: `power_cycle` does raise for a failed confirmation.
With the cycle acknowledgment matching instantly but the login wait timing
out on both attempts, the ConsoleError raised by `_wait_for_login`
propagates out of `power_cycle` instead of being logged. -/
theorem power_cycle_raises_on_login_exhaustion :
    (cDemo.power_cycle
      (initState [.matched 0, .timedOut, .timedOut, .timedOut, .timedOut])).1
      = Except.error ConsoleErr.consoleError := by
  simp [PhysicalConsole.power_cycle, PhysicalConsole.wait_for_login,
    PhysicalConsole.wait_for_login_go, PhysicalConsole.login_attempt,
    PhysicalConsole.exit_session, expectCall, expectResult, timeoutCase,
    PhysicalConsole.pexpect_spawn, emit, loginPats, exitPats, pyOrNat,
    cDemo, mkPhysicalConsole, pyOrStr, initState, List.findIdx?,
    Pat.isText, Pat.isTimeoutPat, Pat.isEofPat, optStr]

/-- C4: the default retry budget of `_wait_for_login` is exactly 2
attempts: with every expect timing out, the run raises ConsoleError after
spawning the login session exactly twice (not once, not three times), and
with the login prompt matching in the first attempt it returns
successfully after a single session. -/
theorem wait_for_login_default_budget :
    (∀ (c : PhysicalConsole) (tmo : Option Nat) (s : PState),
      c.wait_for_login_default tmo s = c.wait_for_login tmo 2 s)
    ∧ ((cDemo.wait_for_login_default none
        (initState [.timedOut, .timedOut, .timedOut, .timedOut])).1
        = Except.error ConsoleErr.consoleError)
    ∧ (countEv (isSpawnOf "sol activate")
        ((cDemo.wait_for_login_default none
          (initState [.timedOut, .timedOut, .timedOut, .timedOut])).2.trace) = 2)
    ∧ ((cDemo.wait_for_login_default none (initState [.matched 0, .matched 0])).1
        = Except.ok ())
    ∧ (countEv (isSpawnOf "sol activate")
        ((cDemo.wait_for_login_default none
          (initState [.matched 0, .matched 0])).2.trace) = 1) := by
  refine ⟨fun c tmo s => rfl, ?_, ?_, ?_, ?_⟩ <;>
  simp [PhysicalConsole.wait_for_login_default, PhysicalConsole.wait_for_login,
    PhysicalConsole.wait_for_login_go, PhysicalConsole.login_attempt,
    PhysicalConsole.exit_session, expectCall, expectResult, timeoutCase,
    PhysicalConsole.pexpect_spawn, emit, loginPats, exitPats, pyOrNat,
    cDemo, mkPhysicalConsole, pyOrStr, initState, List.findIdx?,
    Pat.isText, Pat.isTimeoutPat, Pat.isEofPat, optStr, countEv, isSpawnOf,
    List.filter]

/-- C9: `power_off_for_interval` performs, in order: the `power off` spawn
and its Down/Off acknowledgment, an unconditional sleep of exactly the
requested interval, the `power on` spawn and its Up/On acknowledgment,
then the login-wait confirmation.  With sessions that match instantly the
whole trace is fixed, and the `power on` spawn happens exactly `interval`
time-units after the off-acknowledgment at time 0. -/
theorem power_off_for_interval_timing (interval : Nat) :
    ((cDemo.power_off_for_interval interval
      (initState [.matched 0, .matched 0, .matched 0, .matched 0])).1 = Except.ok ())
    ∧ (cDemo.power_off_for_interval interval
      (initState [.matched 0, .matched 0, .matched 0, .matched 0])).2.trace
    = [⟨0, .logInfo "Power off for interval"⟩,
       ⟨0, .spawn "power off"⟩,
       ⟨0, .expected [.text "Chassis Power Control: Down/Off"] 20 (.ok 0)⟩,
       ⟨0, .slept interval⟩,
       ⟨interval, .spawn "power on"⟩,
       ⟨interval, .expected [.text "Chassis Power Control: Up/On"] 20 (.ok 0)⟩,
       ⟨interval, .spawn "sol activate"⟩,
       ⟨interval, .send "\n"⟩,
       ⟨interval, .expected (loginPats cDemo) 20 (.ok 0)⟩,
       ⟨interval, .send "~."⟩,
       ⟨interval, .expected exitPats 20 (.ok 0)⟩,
       ⟨interval, .logInfo "Power off for interval completed"⟩] := by
  constructor <;>
  simp [PhysicalConsole.power_off_for_interval, PhysicalConsole.wait_for_login,
    PhysicalConsole.wait_for_login_go, PhysicalConsole.login_attempt,
    PhysicalConsole.exit_session, expectCall, expectResult, timeoutCase,
    PhysicalConsole.pexpect_spawn, emit, loginPats, exitPats, pyOrNat,
    cDemo, mkPhysicalConsole, pyOrStr, initState, List.findIdx?,
    Pat.isText, Pat.isTimeoutPat, Pat.isEofPat, doSleep]

theorem login_text_ne (a : String) : a ++ " login: " ≠ "terminated ipmitool" := by
  intro h
  have h2 : (a ++ " login: ").data = ("terminated ipmitool" : String).data := by rw [h]
  rw [String.data_append] at h2
  have h3 := congrArg List.getLast? h2
  rw [List.getLast?_append] at h3
  simp at h3

theorem loginPats_ne_exitPats (c : PhysicalConsole) : loginPats c ≠ exitPats := by
  simp only [loginPats, exitPats, ne_eq, List.cons.injEq, Pat.text.injEq]
  intro h
  exact login_text_ne c.shortname h.1

theorem countEv_append (p : Event → Bool) (l1 l2 : List TEvent) :
    countEv p (l1 ++ l2) = countEv p l1 + countEv p l2 := by
  simp [countEv, List.filter_append]

theorem countEv_singleton (p : Event → Bool) (te : TEvent) :
    countEv p [te] = if p te.ev then 1 else 0 := by
  simp only [countEv, List.filter]
  split <;> simp_all

theorem countEv_emit (p : Event → Bool) (s : PState) (e : Event) :
    countEv p (emit s e).trace = countEv p s.trace + (if p e then 1 else 0) := by
  rw [show (emit s e).trace = s.trace ++ [⟨s.clock, e⟩] from rfl, countEv_append,
    countEv_singleton]

theorem countEv_pexpect_spawn (p : Event → Bool) (c : PhysicalConsole) (cmd : String)
    (s : PState) :
    countEv p (c.pexpect_spawn cmd s).trace
      = countEv p s.trace
        + (if c.has_ipmi_credentials then 0 else
            (if p (Event.logErr "Must set ipmi_user, ipmi_password, and ipmi_domain")
             then 1 else 0))
        + (if p (Event.spawn cmd) then 1 else 0) := by
  unfold PhysicalConsole.pexpect_spawn
  split <;> rename_i hcred <;> simp only [hcred, if_true, if_false, countEv_emit] <;> omega

theorem expectCall_trace (pats : List Pat) (tmo : Nat) (s : PState) :
    (expectCall pats tmo s).2.trace = s.trace ++
      [⟨s.clock + (expectResult pats tmo (s.script.headD .timedOut)).2,
        .expected pats tmo (expectResult pats tmo (s.script.headD .timedOut)).1⟩] := rfl

theorem countEv_expectCall (p : Event → Bool) (pats : List Pat) (tmo : Nat) (s : PState) :
    countEv p (expectCall pats tmo s).2.trace
      = countEv p s.trace
        + (if p (Event.expected pats tmo (expectCall pats tmo s).1) then 1 else 0) := by
  rw [expectCall_trace, countEv_append, countEv_singleton]
  rfl

theorem countEv_doSleep (p : Event → Bool) (d : Nat) (s : PState) :
    countEv p (doSleep d s).trace = countEv p s.trace + (if p (Event.slept d) then 1 else 0) := by
  rw [show (doSleep d s).trace = s.trace ++ [⟨s.clock, Event.slept d⟩] from rfl,
    countEv_append, countEv_singleton]

theorem countEv_exit_session (p : Event → Bool) (c : PhysicalConsole) (tmo : Option Nat)
    (s : PState) :
    countEv p (c.exit_session tmo s).trace
      = countEv p s.trace + (if p (Event.send "~.") then 1 else 0)
        + (if p (Event.expected exitPats (pyOrNat tmo c.timeout)
            (expectCall exitPats (pyOrNat tmo c.timeout) (emit s (Event.send "~."))).1)
           then 1 else 0)
        + (if (expectCall exitPats (pyOrNat tmo c.timeout) (emit s (Event.send "~."))).1
              = Except.ok 0 then 0
           else ((if c.has_ipmi_credentials then 0 else
              (if p (Event.logErr "Must set ipmi_user, ipmi_password, and ipmi_domain")
               then 1 else 0))
             + (if p (Event.spawn "sol deactivate") then 1 else 0))) := by
  by_cases hc : (expectCall exitPats (pyOrNat tmo c.timeout) (emit s (Event.send "~."))).1
      = Except.ok 0
  · simp only [PhysicalConsole.exit_session, hc, if_true, eq_self_iff_true,
      countEv_expectCall, countEv_emit]
    omega
  · simp only [PhysicalConsole.exit_session, if_neg hc, countEv_pexpect_spawn,
      countEv_expectCall, countEv_emit]
    omega

theorem login_attempt_balance (c : PhysicalConsole) (deadline : Nat) (s : PState) :
    (countEv (isSpawnOf "sol activate") (c.login_attempt deadline s).2.trace
        + countEv (isSendOf "~.") s.trace
      = countEv (isSendOf "~.") (c.login_attempt deadline s).2.trace
        + countEv (isSpawnOf "sol activate") s.trace)
    ∧ (countEv isExitExpect (c.login_attempt deadline s).2.trace
        + countEv (isSendOf "~.") s.trace
      = countEv (isSendOf "~.") (c.login_attempt deadline s).2.trace
        + countEv isExitExpect s.trace)
    ∧ (countEv (isSpawnOf "sol deactivate") (c.login_attempt deadline s).2.trace
        + countEv isFailedExitExpect s.trace
      = countEv isFailedExitExpect (c.login_attempt deadline s).2.trace
        + countEv (isSpawnOf "sol deactivate") s.trace) := by
  have hlp := loginPats_ne_exitPats c
  induction s using PhysicalConsole.login_attempt.induct c deadline with
  | case1 s hg hs2 hr hok =>
    rw [PhysicalConsole.login_attempt.eq_def, if_pos hg]
    simp only []
    split
    next hcond =>
      simp only [countEv_exit_session, countEv_expectCall, countEv_emit,
        countEv_pexpect_spawn]
      simp [isSpawnOf, isSendOf, isExitExpect, isFailedExitExpect, hlp]
      refine ⟨?_, ?_, ?_⟩ <;> omega
    next hcond => exact absurd hok hcond
  | case2 s hg hs2 hr hs4 hne ih =>
    rw [PhysicalConsole.login_attempt.eq_def, if_pos hg]
    simp only []
    split
    next hcond => exact absurd hcond hne
    next hcond =>
      unfold hs4 hr hs2 at ih
      obtain ⟨ih1, ih2, ih3⟩ := ih
      simp only [countEv_exit_session, countEv_expectCall, countEv_emit,
        countEv_pexpect_spawn] at ih1 ih2 ih3 ⊢
      simp [isSpawnOf, isSendOf, isExitExpect, isFailedExitExpect, hlp] at ih1 ih2 ih3 ⊢
      refine ⟨?_, ?_, ?_⟩ <;> omega
  | case3 s hg =>
    rw [PhysicalConsole.login_attempt.eq_def, if_neg hg]
    refine ⟨?_, ?_, ?_⟩ <;> (dsimp only; omega)

theorem wait_for_login_go_balance (c : PhysicalConsole) (t : Nat) :
    ∀ (n : Nat) (s : PState),
    (countEv (isSpawnOf "sol activate") (c.wait_for_login_go t n s).2.trace
        + countEv (isSendOf "~.") s.trace
      = countEv (isSendOf "~.") (c.wait_for_login_go t n s).2.trace
        + countEv (isSpawnOf "sol activate") s.trace)
    ∧ (countEv isExitExpect (c.wait_for_login_go t n s).2.trace
        + countEv (isSendOf "~.") s.trace
      = countEv (isSendOf "~.") (c.wait_for_login_go t n s).2.trace
        + countEv isExitExpect s.trace)
    ∧ (countEv (isSpawnOf "sol deactivate") (c.wait_for_login_go t n s).2.trace
        + countEv isFailedExitExpect s.trace
      = countEv isFailedExitExpect (c.wait_for_login_go t n s).2.trace
        + countEv (isSpawnOf "sol deactivate") s.trace) := by
  intro n
  induction n with
  | zero =>
    intro s
    simp only [PhysicalConsole.wait_for_login_go]
    refine ⟨?_, ?_, ?_⟩ <;> omega
  | succ n ih =>
    intro s
    simp only [PhysicalConsole.wait_for_login_go]
    obtain ⟨hb1, hb2, hb3⟩ := login_attempt_balance c (s.clock + t) s
    split
    next hcond =>
      dsimp only
      refine ⟨?_, ?_, ?_⟩ <;> omega
    next hcond =>
      obtain ⟨hg1, hg2, hg3⟩ := ih (c.login_attempt (s.clock + t) s).2
      refine ⟨?_, ?_, ?_⟩ <;> omega

/-- C2: whichever ExpectOutcome terminates each wait of the login-wait
state machine — a prompt match, a timeout, or an end of stream — the exit
sequence of `_exit_session` runs before the session is abandoned: over any
complete run of `_wait_for_login`, the number of `sol activate` spawns
equals the number of deactivation sends of the bytes "~.", which equals
the number of waits for the `terminated ipmitool` acknowledgment, and an
out-of-band `sol deactivate` is spawned exactly once per acknowledgment
wait whose result was not a match.  No code path out of the active
session skips the exit step. -/
theorem wait_for_login_always_exits_sessions (c : PhysicalConsole) (tmo : Option Nat)
    (attempts : Nat) (script : List SessionResult) :
    (countEv (isSpawnOf "sol activate")
        (c.wait_for_login tmo attempts (initState script)).2.trace
      = countEv (isSendOf "~.")
        (c.wait_for_login tmo attempts (initState script)).2.trace)
    ∧ (countEv isExitExpect
        (c.wait_for_login tmo attempts (initState script)).2.trace
      = countEv (isSendOf "~.")
        (c.wait_for_login tmo attempts (initState script)).2.trace)
    ∧ (countEv (isSpawnOf "sol deactivate")
        (c.wait_for_login tmo attempts (initState script)).2.trace
      = countEv isFailedExitExpect
        (c.wait_for_login tmo attempts (initState script)).2.trace) := by
  obtain ⟨h1, h2, h3⟩ := wait_for_login_go_balance c (pyOrNat tmo c.timeout) attempts
    (initState script)
  have hz : ∀ p : Event → Bool, countEv p (initState script).trace = 0 := by
    intro p
    simp [countEv, initState]
  simp only [hz] at h1 h2 h3
  simp only [PhysicalConsole.wait_for_login]
  exact ⟨by omega, by omega, by omega⟩

theorem check_power_go_clock_le (c : PhysicalConsole) (state : String) (timeout : Nat)
    (t total ta : Nat) (ht : 0 < t) (s : PState) :
    ta ≤ s.clock → total ≤ t + timeout →
    (c.check_power_go state timeout t total ta ht s).2.clock + total
      ≤ s.clock + t + timeout := by
  induction t, total, ta, ht, s using PhysicalConsole.check_power_go.induct c state timeout with
  | case1 t total ta ht s hg hr hok =>
    intro hta htot
    rw [PhysicalConsole.check_power_go.eq_def, if_pos hg]
    simp only []
    have h3 : (expectCall (powerPats state) t (c.pexpect_spawn "power status" s)).2.clock
        = s.clock + (expectResult (powerPats state) t (s.script.headD .timedOut)).2 := by
      rw [expectCall_clock, pexpect_spawn_clock, pexpect_spawn_script]
    have h4 := expectResult_elapsed_le (powerPats state) t (s.script.headD .timedOut)
    split
    next h2 =>
      dsimp only
      omega
    next h2 => exact absurd hok h2
  | case2 t total ta ht s hg hr hj hne hs3 ih =>
    intro hta htot
    rw [PhysicalConsole.check_power_go.eq_def, if_pos hg]
    simp only []
    have h3 : (expectCall (powerPats state) t (c.pexpect_spawn "power status" s)).2.clock
        = s.clock + (expectResult (powerPats state) t (s.script.headD .timedOut)).2 := by
      rw [expectCall_clock, pexpect_spawn_clock, pexpect_spawn_script]
    have h4 := expectResult_elapsed_le (powerPats state) t (s.script.headD .timedOut)
    split
    next h2 => exact absurd h2 hne
    next h2 =>
      unfold hs3 hj hr at ih
      split_ifs at ih ⊢ <;>
        (have H := ih (by simp [doSleep]) (by omega);
         simp only [doSleep] at H ⊢;
         omega)
  | case3 t total ta ht s hg =>
    intro hta htot
    rw [PhysicalConsole.check_power_go.eq_def, if_neg hg]
    dsimp only
    omega

theorem expectCall_fst (pats : List Pat) (tmo : Nat) (s : PState) :
    (expectCall pats tmo s).1 = (expectResult pats tmo (s.script.headD .timedOut)).1 := rfl

theorem pexpect_spawn_trace (c : PhysicalConsole) (cmd : String) (s : PState) :
    (c.pexpect_spawn cmd s).trace = s.trace ++
      (if c.has_ipmi_credentials then [⟨s.clock, .spawn cmd⟩]
       else [⟨s.clock, .logErr "Must set ipmi_user, ipmi_password, and ipmi_domain"⟩,
             ⟨s.clock, .spawn cmd⟩]) := by
  unfold PhysicalConsole.pexpect_spawn
  split <;> rename_i hcred <;> simp [hcred, emit]

theorem powerPats_ok_zero (state : String) (tmo : Nat) (o : SessionResult)
    (h : (expectResult (powerPats state) tmo o).1 = Except.ok 0) :
    ∃ e, o = SessionResult.matched e ∧ e ≤ tmo := by
  cases o with
  | matched e =>
    by_cases he : e ≤ tmo
    · exact ⟨e, rfl, he⟩
    · simp [expectResult, he, timeoutCase, powerPats, List.findIdx?,
        Pat.isTimeoutPat, Pat.isText, Pat.isEofPat] at h
  | timedOut =>
    simp [expectResult, timeoutCase, powerPats, List.findIdx?,
      Pat.isTimeoutPat, Pat.isText, Pat.isEofPat] at h
  | eof e =>
    by_cases he : e ≤ tmo <;>
      simp [expectResult, he, timeoutCase, powerPats, List.findIdx?,
        Pat.isTimeoutPat, Pat.isText, Pat.isEofPat] at h

theorem check_power_go_no_match (c : PhysicalConsole) (state : String) (timeout : Nat)
    (t total ta : Nat) (ht : 0 < t) (s : PState) :
    (∀ o ∈ s.script, ∀ e, o ≠ SessionResult.matched e) →
    (c.check_power_go state timeout t total ta ht s).1 = false := by
  induction t, total, ta, ht, s using PhysicalConsole.check_power_go.induct c state timeout with
  | case1 t total ta ht s hg hr hok =>
    intro h
    exfalso
    unfold hr at hok
    rw [expectCall_fst, pexpect_spawn_script] at hok
    obtain ⟨e, he, _⟩ := powerPats_ok_zero state t _ hok
    cases hs : s.script with
    | nil => rw [hs] at he; simp at he
    | cons a l =>
      rw [hs] at he
      simp only [List.headD_cons] at he
      exact h a (by rw [hs]; exact List.mem_cons_self a l) e he
  | case2 t total ta ht s hg hr hj hne hs3 ih =>
    intro h
    rw [PhysicalConsole.check_power_go.eq_def, if_pos hg]
    simp only []
    split
    next h2 => exact absurd h2 hne
    next h2 =>
      unfold hs3 hj hr at ih
      apply ih
      intro o ho
      split_ifs at ho <;>
        simp only [doSleep, expectCall_script, pexpect_spawn_script] at ho <;>
        exact h o (List.mem_of_mem_tail ho)
  | case3 t total ta ht s hg =>
    intro h
    rw [PhysicalConsole.check_power_go.eq_def, if_neg hg]

theorem expectTmos_append (l1 l2 : List TEvent) :
    expectTmos (l1 ++ l2) = expectTmos l1 ++ expectTmos l2 := by
  simp [expectTmos, List.filterMap_append]

theorem doubling_cons (t n : Nat) :
    t :: (List.range n).map (fun i => (t * 2) * 2 ^ i)
      = (List.range (n + 1)).map (fun i => t * 2 ^ i) := by
  rw [List.range_succ_eq_map, List.map_cons, List.map_map]
  simp only [List.cons.injEq]
  refine ⟨by simp, ?_⟩
  refine List.map_congr_left ?_
  intro i _
  simp only [Function.comp_apply, pow_succ]
  ring

theorem check_power_go_tmos (c : PhysicalConsole) (state : String) (timeout : Nat)
    (t total ta : Nat) (ht : 0 < t) (s : PState) :
    ∃ n d, (c.check_power_go state timeout t total ta ht s).2.trace = s.trace ++ d
      ∧ expectTmos d = (List.range n).map (fun i => t * 2 ^ i) := by
  induction t, total, ta, ht, s using PhysicalConsole.check_power_go.induct c state timeout with
  | case1 t total ta ht s hg hr hok =>
    rw [PhysicalConsole.check_power_go.eq_def, if_pos hg]
    simp only []
    split
    next h2 =>
      refine ⟨1, (if c.has_ipmi_credentials then [⟨s.clock, .spawn "power status"⟩]
          else [⟨s.clock, .logErr "Must set ipmi_user, ipmi_password, and ipmi_domain"⟩,
                ⟨s.clock, .spawn "power status"⟩])
        ++ [⟨(c.pexpect_spawn "power status" s).clock
              + (expectResult (powerPats state) t
                  ((c.pexpect_spawn "power status" s).script.headD .timedOut)).2,
            .expected (powerPats state) t
              (expectResult (powerPats state) t
                ((c.pexpect_spawn "power status" s).script.headD .timedOut)).1⟩], ?_, ?_⟩
      · dsimp only
        rw [expectCall_trace, pexpect_spawn_trace, List.append_assoc]
      · rw [expectTmos_append]
        split <;> simp [expectTmos, List.range_succ]
    next h2 => exact absurd hok h2
  | case2 t total ta ht s hg hr hj hne hs3 ih =>
    rw [PhysicalConsole.check_power_go.eq_def, if_pos hg]
    simp only []
    split
    next h2 => exact absurd h2 hne
    next h2 =>
      unfold hs3 hj hr at ih
      obtain ⟨n, d2, hd2, htm⟩ := ih
      split_ifs at hd2 ⊢ with hc1 hc2
      · refine ⟨n + 1, (if c.has_ipmi_credentials then [⟨s.clock, .spawn "power status"⟩]
            else [⟨s.clock, .logErr "Must set ipmi_user, ipmi_password, and ipmi_domain"⟩,
                  ⟨s.clock, .spawn "power status"⟩])
          ++ [⟨(c.pexpect_spawn "power status" s).clock
                + (expectResult (powerPats state) t
                    ((c.pexpect_spawn "power status" s).script.headD .timedOut)).2,
              .expected (powerPats state) t
                (expectResult (powerPats state) t
                  ((c.pexpect_spawn "power status" s).script.headD .timedOut)).1⟩]
          ++ [⟨(expectCall (powerPats state) t (c.pexpect_spawn "power status" s)).2.clock,
              .slept (t - ((expectCall (powerPats state) t
                (c.pexpect_spawn "power status" s)).2.clock - ta))⟩]
          ++ d2, ?_, ?_⟩
        · rw [hd2]
          simp only [doSleep, expectCall_trace, pexpect_spawn_trace]
          simp [List.append_assoc]
        · rw [expectTmos_append, expectTmos_append, expectTmos_append, htm]
          rw [show expectTmos [⟨(expectCall (powerPats state) t
              (c.pexpect_spawn "power status" s)).2.clock,
              .slept (t - ((expectCall (powerPats state) t
                (c.pexpect_spawn "power status" s)).2.clock - ta))⟩] = [] from rfl]
          rw [show (expectTmos (if c.has_ipmi_credentials then [⟨s.clock, Event.spawn "power status"⟩]
            else [⟨s.clock, Event.logErr "Must set ipmi_user, ipmi_password, and ipmi_domain"⟩,
                  ⟨s.clock, Event.spawn "power status"⟩])) = [] from by split <;> rfl]
          simp only [List.nil_append, List.append_nil]
          rw [show expectTmos [⟨(c.pexpect_spawn "power status" s).clock
                + (expectResult (powerPats state) t
                    ((c.pexpect_spawn "power status" s).script.headD .timedOut)).2,
              .expected (powerPats state) t
                (expectResult (powerPats state) t
                  ((c.pexpect_spawn "power status" s).script.headD .timedOut)).1⟩]
            = [t] from rfl]
          rw [List.singleton_append]
          exact doubling_cons t n
      · refine ⟨n + 1, (if c.has_ipmi_credentials then [⟨s.clock, .spawn "power status"⟩]
            else [⟨s.clock, .logErr "Must set ipmi_user, ipmi_password, and ipmi_domain"⟩,
                  ⟨s.clock, .spawn "power status"⟩])
          ++ [⟨(c.pexpect_spawn "power status" s).clock
                + (expectResult (powerPats state) t
                    ((c.pexpect_spawn "power status" s).script.headD .timedOut)).2,
              .expected (powerPats state) t
                (expectResult (powerPats state) t
                  ((c.pexpect_spawn "power status" s).script.headD .timedOut)).1⟩]
          ++ d2, ?_, ?_⟩
        · rw [hd2]
          simp only [expectCall_trace, pexpect_spawn_trace]
          simp [List.append_assoc]
        · rw [expectTmos_append, expectTmos_append, htm]
          rw [show (expectTmos (if c.has_ipmi_credentials then [⟨s.clock, Event.spawn "power status"⟩]
            else [⟨s.clock, Event.logErr "Must set ipmi_user, ipmi_password, and ipmi_domain"⟩,
                  ⟨s.clock, Event.spawn "power status"⟩])) = [] from by split <;> rfl]
          simp only [List.nil_append]
          rw [show expectTmos [⟨(c.pexpect_spawn "power status" s).clock
                + (expectResult (powerPats state) t
                    ((c.pexpect_spawn "power status" s).script.headD .timedOut)).2,
              .expected (powerPats state) t
                (expectResult (powerPats state) t
                  ((c.pexpect_spawn "power status" s).script.headD .timedOut)).1⟩]
            = [t] from rfl]
          rw [List.singleton_append]
          exact doubling_cons t n
      · refine ⟨n + 1, (if c.has_ipmi_credentials then [⟨s.clock, .spawn "power status"⟩]
            else [⟨s.clock, .logErr "Must set ipmi_user, ipmi_password, and ipmi_domain"⟩,
                  ⟨s.clock, .spawn "power status"⟩])
          ++ [⟨(c.pexpect_spawn "power status" s).clock
                + (expectResult (powerPats state) t
                    ((c.pexpect_spawn "power status" s).script.headD .timedOut)).2,
              .expected (powerPats state) t
                (expectResult (powerPats state) t
                  ((c.pexpect_spawn "power status" s).script.headD .timedOut)).1⟩]
          ++ d2, ?_, ?_⟩
        · rw [hd2]
          simp only [expectCall_trace, pexpect_spawn_trace]
          simp [List.append_assoc]
        · rw [expectTmos_append, expectTmos_append, htm]
          rw [show (expectTmos (if c.has_ipmi_credentials then [⟨s.clock, Event.spawn "power status"⟩]
            else [⟨s.clock, Event.logErr "Must set ipmi_user, ipmi_password, and ipmi_domain"⟩,
                  ⟨s.clock, Event.spawn "power status"⟩])) = [] from by split <;> rfl]
          simp only [List.nil_append]
          rw [show expectTmos [⟨(c.pexpect_spawn "power status" s).clock
                + (expectResult (powerPats state) t
                    ((c.pexpect_spawn "power status" s).script.headD .timedOut)).2,
              .expected (powerPats state) t
                (expectResult (powerPats state) t
                  ((c.pexpect_spawn "power status" s).script.headD .timedOut)).1⟩]
            = [t] from rfl]
          rw [List.singleton_append]
          exact doubling_cons t n
  | case3 t total ta ht s hg =>
    rw [PhysicalConsole.check_power_go.eq_def, if_neg hg]
    exact ⟨0, [], by simp, by simp [expectTmos]⟩

/-- C3: for every sequence of session outcomes, `check_power` terminates
(it is a total function of the script), its total running time never
exceeds the effective overall timeout — in particular it stays within the
timeout plus one extra backoff interval — the expect wait bounds recorded
in its trace are exactly 1, 2, 4, ... doubling from 1 time-unit, and when
no outcome matches (for instance when every outcome is EndOfStream) it
returns False as an ordinary value, not an exception.  The concrete
all-EndOfStream run with overall timeout 10 shows the remainder of each
wait bound being slept out: sleeps 1, 1, 3 and wait bounds 1, 2, 4, with
total elapsed time 5 ≤ 10. -/
theorem check_power_terminates_bounded (c : PhysicalConsole) (state : String)
    (tmo : Option Nat) (script : List SessionResult) :
    ((c.check_power state tmo (initState script)).2.clock ≤ pyOrNat tmo c.timeout)
    ∧ (∃ n, expectTmos ((c.check_power state tmo (initState script)).2.trace)
        = (List.range n).map (fun i => 2 ^ i))
    ∧ ((∀ o ∈ script, ∀ e, o ≠ SessionResult.matched e) →
        (c.check_power state tmo (initState script)).1 = false)
    ∧ (((cDemo.check_power "off" (some 10)
          (initState (List.replicate 5 (SessionResult.eof 0)))).1 = false)
      ∧ ((cDemo.check_power "off" (some 10)
          (initState (List.replicate 5 (SessionResult.eof 0)))).2.clock = 5)
      ∧ (sleepDurations ((cDemo.check_power "off" (some 10)
          (initState (List.replicate 5 (SessionResult.eof 0)))).2.trace) = [1, 1, 3])
      ∧ (expectTmos ((cDemo.check_power "off" (some 10)
          (initState (List.replicate 5 (SessionResult.eof 0)))).2.trace) = [1, 2, 4])) := by
  refine ⟨?_, ?_, ?_, ?_⟩
  · have H2 : (c.check_power state tmo (initState script)).2.clock + 1
        ≤ (initState script).clock + 1 + pyOrNat tmo c.timeout :=
      check_power_go_clock_le c state (pyOrNat tmo c.timeout) 1 1
        (initState script).clock (by omega) (initState script) (le_refl _) (by omega)
    have h0 : (initState script).clock = 0 := rfl
    omega
  · obtain ⟨n, d, hd, htm⟩ := check_power_go_tmos c state (pyOrNat tmo c.timeout) 1 1
      (initState script).clock (by omega) (initState script)
    have hd2 : (c.check_power state tmo (initState script)).2.trace
        = (initState script).trace ++ d := hd
    refine ⟨n, ?_⟩
    rw [hd2, show (initState script).trace = [] from rfl, List.nil_append, htm]
    refine List.map_congr_left ?_
    intro i _
    omega
  · intro h
    have H2 : (c.check_power state tmo (initState script)).1 = false :=
      check_power_go_no_match c state (pyOrNat tmo c.timeout) 1 1
        (initState script).clock (by omega) (initState script) h
    exact H2
  · refine ⟨?_, ?_, ?_, ?_⟩ <;>
    simp [PhysicalConsole.check_power, PhysicalConsole.check_power_go,
      expectCall, expectResult, timeoutCase, PhysicalConsole.pexpect_spawn,
      emit, powerPats, pyOrNat, cDemo, mkPhysicalConsole, pyOrStr, initState,
      List.findIdx?, Pat.isText, Pat.isTimeoutPat, Pat.isEofPat, doSleep,
      sleepDurations, expectTmos, List.filterMap, List.replicate, optStr]

theorem check_power_terminates_bounded_witness :
    (cDemo.check_power "on" (some 5) (initState [SessionResult.eof 0])).1 = false :=
  (check_power_terminates_bounded cDemo "on" (some 5) [SessionResult.eof 0]).2.2.1
    (by
      intro o ho e
      rw [List.mem_singleton] at ho
      subst ho
      exact fun hcontra => SessionResult.noConfusion hcontra)

def isLogErrOf (m : String) : Event → Bool
  | .logErr x => x == m
  | _ => false

theorem countEv_power_ack_loop (p : Event → Bool) (c : PhysicalConsole)
    (cmd ackText : String) (deadline : Nat) (s : PState)
    (hsp : p (Event.spawn cmd) = false)
    (hex : ∀ r, p (Event.expected [Pat.text ackText, Pat.pEOF] c.timeout r) = false)
    (hle : p (Event.logErr "Must set ipmi_user, ipmi_password, and ipmi_domain") = false) :
    countEv p (c.power_ack_loop cmd ackText deadline s).2.trace = countEv p s.trace := by
  induction s using PhysicalConsole.power_ack_loop.induct c cmd ackText deadline with
  | case1 s hg hr he herr =>
    rw [PhysicalConsole.power_ack_loop.eq_def, if_pos hg]
    simp only []
    unfold hr at herr
    rw [herr]
    simp only [countEv_expectCall, countEv_pexpect_spawn, hex, hsp, hle,
      Bool.false_eq_true, if_false, ite_self]
    omega
  | case2 s hg hr hok =>
    rw [PhysicalConsole.power_ack_loop.eq_def, if_pos hg]
    simp only []
    unfold hr at hok
    rw [hok]
    simp only [countEv_expectCall, countEv_pexpect_spawn, hex, hsp, hle,
      Bool.false_eq_true, if_false, ite_self]
    omega
  | case3 s hg hr n hok ih =>
    rw [PhysicalConsole.power_ack_loop.eq_def, if_pos hg]
    simp only []
    unfold hr at hok ih
    rw [hok]
    simp only []
    rw [ih]
    simp only [countEv_expectCall, countEv_pexpect_spawn, hex, hsp, hle,
      Bool.false_eq_true, if_false, ite_self]
    omega
  | case4 s hg =>
    rw [PhysicalConsole.power_ack_loop.eq_def, if_neg hg]

theorem countEv_check_power_go (p : Event → Bool) (c : PhysicalConsole) (state : String)
    (timeout : Nat) (t total ta : Nat) (ht : 0 < t) (s : PState)
    (hsp : p (Event.spawn "power status") = false)
    (hex : ∀ tmo r, p (Event.expected (powerPats state) tmo r) = false)
    (hsl : ∀ d, p (Event.slept d) = false)
    (hle : p (Event.logErr "Must set ipmi_user, ipmi_password, and ipmi_domain") = false) :
    countEv p (c.check_power_go state timeout t total ta ht s).2.trace
      = countEv p s.trace := by
  induction t, total, ta, ht, s using PhysicalConsole.check_power_go.induct c state timeout with
  | case1 t total ta ht s hg hr hok =>
    rw [PhysicalConsole.check_power_go.eq_def, if_pos hg]
    simp only []
    unfold hr at hok
    rw [if_pos hok]
    simp only [countEv_expectCall, countEv_pexpect_spawn, hex, hsp, hle,
      Bool.false_eq_true, if_false, ite_self]
    omega
  | case2 t total ta ht s hg hr hj hne hs3 ih =>
    rw [PhysicalConsole.check_power_go.eq_def, if_pos hg]
    simp only []
    unfold hr at hne
    rw [if_neg hne]
    unfold hs3 hj hr at ih
    split_ifs at ih ⊢ <;>
      (rw [ih];
       simp only [countEv_doSleep, countEv_expectCall, countEv_pexpect_spawn, hex, hsp,
         hle, hsl, Bool.false_eq_true, if_false, ite_self];
       omega)
  | case3 t total ta ht s hg =>
    rw [PhysicalConsole.check_power_go.eq_def, if_neg hg]

theorem power_on_result_eq_ack (c : PhysicalConsole) (s : PState) :
    (c.power_on s).1
      = (c.power_ack_loop "power on" "Chassis Power Control: Up/On"
          ((emit s (Event.logInfo "Power on")).clock + c.timeout)
          (emit s (Event.logInfo "Power on"))).1 := by
  unfold PhysicalConsole.power_on
  simp only []
  cases h : (c.power_ack_loop "power on" "Chassis Power Control: Up/On"
      ((emit s (Event.logInfo "Power on")).clock + c.timeout)
      (emit s (Event.logInfo "Power on"))).1 with
  | error e => rfl
  | ok a => cases a; rfl

theorem power_off_result_eq_ack (c : PhysicalConsole) (s : PState) :
    (c.power_off s).1
      = (c.power_ack_loop "power off" "Chassis Power Control: Down/Off"
          ((emit s (Event.logInfo "Power off")).clock + c.timeout)
          (emit s (Event.logInfo "Power off"))).1 := by
  unfold PhysicalConsole.power_off
  simp only []
  cases h : (c.power_ack_loop "power off" "Chassis Power Control: Down/Off"
      ((emit s (Event.logInfo "Power off")).clock + c.timeout)
      (emit s (Event.logInfo "Power off"))).1 with
  | error e => rfl
  | ok a => cases a; rfl

theorem power_cycle_result_characterization (c : PhysicalConsole) (s : PState) :
    (c.power_cycle s).1
      = match (expectCall [Pat.text "Chassis Power Control: Cycle"] c.timeout
          (c.pexpect_spawn "power cycle" (emit s (Event.logInfo "Power cycling")))).1 with
        | .error e => .error e
        | .ok _ => (c.wait_for_login (some 300) 2
            (expectCall [Pat.text "Chassis Power Control: Cycle"] c.timeout
              (c.pexpect_spawn "power cycle" (emit s (Event.logInfo "Power cycling")))).2).1 := by
  unfold PhysicalConsole.power_cycle
  simp only []
  cases h : (expectCall [Pat.text "Chassis Power Control: Cycle"] c.timeout
      (c.pexpect_spawn "power cycle" (emit s (Event.logInfo "Power cycling")))).1 with
  | error e => rfl
  | ok a =>
    cases h2 : (c.wait_for_login (some 300) 2
        (expectCall [Pat.text "Chassis Power Control: Cycle"] c.timeout
          (c.pexpect_spawn "power cycle" (emit s (Event.logInfo "Power cycling")))).2).1 with
    | error e => rfl
    | ok u => cases u; rfl

theorem hard_reset_result_characterization (c : PhysicalConsole) (s : PState) :
    (c.hard_reset s).1
      = match (c.power_ack_loop "power reset" "Chassis Power Control: Reset"
          ((emit s (Event.logInfo "Performing hard reset")).clock + c.timeout)
          (emit s (Event.logInfo "Performing hard reset"))).1 with
        | .error e => .error e
        | .ok _ => (c.wait_for_login none 2
            (c.power_ack_loop "power reset" "Chassis Power Control: Reset"
              ((emit s (Event.logInfo "Performing hard reset")).clock + c.timeout)
              (emit s (Event.logInfo "Performing hard reset"))).2).1 := by
  unfold PhysicalConsole.hard_reset
  simp only []
  cases h : (c.power_ack_loop "power reset" "Chassis Power Control: Reset"
      ((emit s (Event.logInfo "Performing hard reset")).clock + c.timeout)
      (emit s (Event.logInfo "Performing hard reset"))).1 with
  | error e => rfl
  | ok a =>
    cases h2 : (c.wait_for_login none 2
        (c.power_ack_loop "power reset" "Chassis Power Control: Reset"
          ((emit s (Event.logInfo "Performing hard reset")).clock + c.timeout)
          (emit s (Event.logInfo "Performing hard reset"))).2).1 with
    | error e => rfl
    | ok u => cases u; rfl

theorem power_on_confirmation_log (c : PhysicalConsole) (s : PState) :
    countEv (isLogErrOf "Failed to power on") (c.power_on s).2.trace
      = countEv (isLogErrOf "Failed to power on") s.trace
        + (match (c.power_ack_loop "power on" "Chassis Power Control: Up/On"
              ((emit s (Event.logInfo "Power on")).clock + c.timeout)
              (emit s (Event.logInfo "Power on"))).1 with
           | .error _ => 0
           | .ok _ => if (c.check_power "on" none
                (c.power_ack_loop "power on" "Chassis Power Control: Up/On"
                  ((emit s (Event.logInfo "Power on")).clock + c.timeout)
                  (emit s (Event.logInfo "Power on"))).2).1 then 0 else 1) := by
  have hack : countEv (isLogErrOf "Failed to power on")
      (c.power_ack_loop "power on" "Chassis Power Control: Up/On"
        ((emit s (Event.logInfo "Power on")).clock + c.timeout)
        (emit s (Event.logInfo "Power on"))).2.trace
      = countEv (isLogErrOf "Failed to power on") (emit s (Event.logInfo "Power on")).trace :=
    countEv_power_ack_loop _ c "power on" "Chassis Power Control: Up/On" _ _
      rfl (fun r => rfl) (by decide)
  have hcp : countEv (isLogErrOf "Failed to power on")
      (c.check_power "on" none
        (c.power_ack_loop "power on" "Chassis Power Control: Up/On"
          ((emit s (Event.logInfo "Power on")).clock + c.timeout)
          (emit s (Event.logInfo "Power on"))).2).2.trace
      = countEv (isLogErrOf "Failed to power on")
        (c.power_ack_loop "power on" "Chassis Power Control: Up/On"
          ((emit s (Event.logInfo "Power on")).clock + c.timeout)
          (emit s (Event.logInfo "Power on"))).2.trace :=
    countEv_check_power_go _ c "on" (pyOrNat none c.timeout) 1 1 _ (by omega) _
      rfl (fun tmo r => rfl) (fun d => rfl) (by decide)
  unfold PhysicalConsole.power_on
  simp only []
  cases h : (c.power_ack_loop "power on" "Chassis Power Control: Up/On"
      ((emit s (Event.logInfo "Power on")).clock + c.timeout)
      (emit s (Event.logInfo "Power on"))).1 with
  | error e =>
    simp only [countEv_emit, hack,
      show isLogErrOf "Failed to power on" (Event.logInfo "Power on") = false from rfl,
      Bool.false_eq_true, if_false]
  | ok a =>
    cases hp : (c.check_power "on" none
        (c.power_ack_loop "power on" "Chassis Power Control: Up/On"
          ((emit s (Event.logInfo "Power on")).clock + c.timeout)
          (emit s (Event.logInfo "Power on"))).2).1 with
    | true =>
      simp only [hp, if_true, if_false, countEv_emit, hcp, hack,
        show isLogErrOf "Failed to power on" (Event.logInfo "Power on") = false from rfl,
        show isLogErrOf "Failed to power on" (Event.logInfo "Power on completed")
          = false from rfl,
        Bool.false_eq_true, if_true]
    | false =>
      simp only [hp, if_true, if_false, countEv_emit, hcp, hack,
        show isLogErrOf "Failed to power on" (Event.logInfo "Power on") = false from rfl,
        show isLogErrOf "Failed to power on" (Event.logInfo "Power on completed")
          = false from rfl,
        show isLogErrOf "Failed to power on" (Event.logErr "Failed to power on")
          = true from by decide,
        Bool.false_eq_true, if_true]

theorem power_off_confirmation_log (c : PhysicalConsole) (s : PState) :
    countEv (isLogErrOf "Failed to power off") (c.power_off s).2.trace
      = countEv (isLogErrOf "Failed to power off") s.trace
        + (match (c.power_ack_loop "power off" "Chassis Power Control: Down/Off"
              ((emit s (Event.logInfo "Power off")).clock + c.timeout)
              (emit s (Event.logInfo "Power off"))).1 with
           | .error _ => 0
           | .ok _ => if (c.check_power "off" (some 60)
                (c.power_ack_loop "power off" "Chassis Power Control: Down/Off"
                  ((emit s (Event.logInfo "Power off")).clock + c.timeout)
                  (emit s (Event.logInfo "Power off"))).2).1 then 0 else 1) := by
  have hack : countEv (isLogErrOf "Failed to power off")
      (c.power_ack_loop "power off" "Chassis Power Control: Down/Off"
        ((emit s (Event.logInfo "Power off")).clock + c.timeout)
        (emit s (Event.logInfo "Power off"))).2.trace
      = countEv (isLogErrOf "Failed to power off") (emit s (Event.logInfo "Power off")).trace :=
    countEv_power_ack_loop _ c "power off" "Chassis Power Control: Down/Off" _ _
      rfl (fun r => rfl) (by decide)
  have hcp : countEv (isLogErrOf "Failed to power off")
      (c.check_power "off" (some 60)
        (c.power_ack_loop "power off" "Chassis Power Control: Down/Off"
          ((emit s (Event.logInfo "Power off")).clock + c.timeout)
          (emit s (Event.logInfo "Power off"))).2).2.trace
      = countEv (isLogErrOf "Failed to power off")
        (c.power_ack_loop "power off" "Chassis Power Control: Down/Off"
          ((emit s (Event.logInfo "Power off")).clock + c.timeout)
          (emit s (Event.logInfo "Power off"))).2.trace :=
    countEv_check_power_go _ c "off" (pyOrNat (some 60) c.timeout) 1 1 _ (by omega) _
      rfl (fun tmo r => rfl) (fun d => rfl) (by decide)
  unfold PhysicalConsole.power_off
  simp only []
  cases h : (c.power_ack_loop "power off" "Chassis Power Control: Down/Off"
      ((emit s (Event.logInfo "Power off")).clock + c.timeout)
      (emit s (Event.logInfo "Power off"))).1 with
  | error e =>
    simp only [countEv_emit, hack,
      show isLogErrOf "Failed to power off" (Event.logInfo "Power off") = false from rfl,
      Bool.false_eq_true, if_false]
  | ok a =>
    cases hp : (c.check_power "off" (some 60)
        (c.power_ack_loop "power off" "Chassis Power Control: Down/Off"
          ((emit s (Event.logInfo "Power off")).clock + c.timeout)
          (emit s (Event.logInfo "Power off"))).2).1 with
    | true =>
      simp only [hp, if_true, if_false, countEv_emit, hcp, hack,
        show isLogErrOf "Failed to power off" (Event.logInfo "Power off") = false from rfl,
        show isLogErrOf "Failed to power off" (Event.logInfo "Power off completed")
          = false from rfl,
        Bool.false_eq_true, if_true]
    | false =>
      simp only [hp, if_true, if_false, countEv_emit, hcp, hack,
        show isLogErrOf "Failed to power off" (Event.logInfo "Power off") = false from rfl,
        show isLogErrOf "Failed to power off" (Event.logInfo "Power off completed")
          = false from rfl,
        show isLogErrOf "Failed to power off" (Event.logErr "Failed to power off")
          = true from by decide,
        Bool.false_eq_true, if_true]

/-- C1 (amended): the four transition operations are not uniformly
non-raising.  For every console, initial state, and script: the result of
`power_on` and `power_off` is exactly their acknowledgment loop's result,
so they never raise for a failed confirmation — when the acknowledgment
step succeeded, a false `check_power` confirmation adds exactly one
"Failed to power on"/"Failed to power off" log line and the call returns
normally; the result of `power_cycle` and `hard_reset` is their
acknowledgment step's error when that step raises and otherwise exactly
the login-wait confirmation's result, so the ConsoleError from login-wait
exhaustion propagates instead of being logged.  Each of the four
acknowledgment expects can itself raise pexpect TIMEOUT, and
`power_cycle`'s single-pattern expect can also raise pexpect EOF, shown
at concrete scripts. -/
theorem physical_transition_ops_error_behaviour :
    (∀ (c : PhysicalConsole) (s : PState),
      (c.power_on s).1
        = (c.power_ack_loop "power on" "Chassis Power Control: Up/On"
            ((emit s (Event.logInfo "Power on")).clock + c.timeout)
            (emit s (Event.logInfo "Power on"))).1)
    ∧ (∀ (c : PhysicalConsole) (s : PState),
      (c.power_off s).1
        = (c.power_ack_loop "power off" "Chassis Power Control: Down/Off"
            ((emit s (Event.logInfo "Power off")).clock + c.timeout)
            (emit s (Event.logInfo "Power off"))).1)
    ∧ (∀ (c : PhysicalConsole) (s : PState),
      countEv (isLogErrOf "Failed to power on") (c.power_on s).2.trace
        = countEv (isLogErrOf "Failed to power on") s.trace
          + (match (c.power_ack_loop "power on" "Chassis Power Control: Up/On"
                ((emit s (Event.logInfo "Power on")).clock + c.timeout)
                (emit s (Event.logInfo "Power on"))).1 with
             | .error _ => 0
             | .ok _ => if (c.check_power "on" none
                  (c.power_ack_loop "power on" "Chassis Power Control: Up/On"
                    ((emit s (Event.logInfo "Power on")).clock + c.timeout)
                    (emit s (Event.logInfo "Power on"))).2).1 then 0 else 1))
    ∧ (∀ (c : PhysicalConsole) (s : PState),
      countEv (isLogErrOf "Failed to power off") (c.power_off s).2.trace
        = countEv (isLogErrOf "Failed to power off") s.trace
          + (match (c.power_ack_loop "power off" "Chassis Power Control: Down/Off"
                ((emit s (Event.logInfo "Power off")).clock + c.timeout)
                (emit s (Event.logInfo "Power off"))).1 with
             | .error _ => 0
             | .ok _ => if (c.check_power "off" (some 60)
                  (c.power_ack_loop "power off" "Chassis Power Control: Down/Off"
                    ((emit s (Event.logInfo "Power off")).clock + c.timeout)
                    (emit s (Event.logInfo "Power off"))).2).1 then 0 else 1))
    ∧ (∀ (c : PhysicalConsole) (s : PState),
      (c.power_cycle s).1
        = match (expectCall [Pat.text "Chassis Power Control: Cycle"] c.timeout
            (c.pexpect_spawn "power cycle" (emit s (Event.logInfo "Power cycling")))).1 with
          | .error e => .error e
          | .ok _ => (c.wait_for_login (some 300) 2
              (expectCall [Pat.text "Chassis Power Control: Cycle"] c.timeout
                (c.pexpect_spawn "power cycle"
                  (emit s (Event.logInfo "Power cycling")))).2).1)
    ∧ (∀ (c : PhysicalConsole) (s : PState),
      (c.hard_reset s).1
        = match (c.power_ack_loop "power reset" "Chassis Power Control: Reset"
            ((emit s (Event.logInfo "Performing hard reset")).clock + c.timeout)
            (emit s (Event.logInfo "Performing hard reset"))).1 with
          | .error e => .error e
          | .ok _ => (c.wait_for_login none 2
              (c.power_ack_loop "power reset" "Chassis Power Control: Reset"
                ((emit s (Event.logInfo "Performing hard reset")).clock + c.timeout)
                (emit s (Event.logInfo "Performing hard reset"))).2).1)
    ∧ ((cDemo.power_on (initState [.timedOut])).1
        = Except.error ConsoleErr.pexpectTimeout)
    ∧ ((cDemo.power_off (initState [.timedOut])).1
        = Except.error ConsoleErr.pexpectTimeout)
    ∧ ((cDemo.hard_reset (initState [.timedOut])).1
        = Except.error ConsoleErr.pexpectTimeout)
    ∧ ((cDemo.power_cycle (initState [.timedOut])).1
        = Except.error ConsoleErr.pexpectTimeout)
    ∧ ((cDemo.power_cycle (initState [.eof 0])).1
        = Except.error ConsoleErr.pexpectEOF)
    ∧ ((cDemo.hard_reset
        (initState [.matched 0, .timedOut, .timedOut, .timedOut, .timedOut])).1
        = Except.error ConsoleErr.consoleError)
    ∧ ((cDemo.power_on (initState [.matched 0, .eof 0, .eof 0, .eof 0, .eof 0])).1
        = Except.ok ()
      ∧ countEv (isLogErrOf "Failed to power on") ((cDemo.power_on
          (initState [.matched 0, .eof 0, .eof 0, .eof 0, .eof 0])).2.trace) = 1)
    ∧ ((cDemo.power_off
        (initState [.matched 0, .eof 0, .eof 0, .eof 0, .eof 0, .eof 0])).1
        = Except.ok ()
      ∧ countEv (isLogErrOf "Failed to power off") ((cDemo.power_off
          (initState [.matched 0, .eof 0, .eof 0, .eof 0, .eof 0, .eof 0])).2.trace) = 1) := by
  refine ⟨power_on_result_eq_ack, power_off_result_eq_ack,
    power_on_confirmation_log, power_off_confirmation_log,
    power_cycle_result_characterization, hard_reset_result_characterization,
    ?_, ?_, ?_, ?_, ?_, ?_, ⟨?_, ?_⟩, ⟨?_, ?_⟩⟩ <;>
  simp [PhysicalConsole.power_on, PhysicalConsole.power_off,
    PhysicalConsole.power_cycle, PhysicalConsole.hard_reset,
    PhysicalConsole.power_ack_loop,
    PhysicalConsole.check_power, PhysicalConsole.check_power_go,
    PhysicalConsole.wait_for_login, PhysicalConsole.wait_for_login_go,
    PhysicalConsole.login_attempt, PhysicalConsole.exit_session,
    expectCall, expectResult, timeoutCase, PhysicalConsole.pexpect_spawn,
    emit, loginPats, exitPats, powerPats, pyOrNat, cDemo, mkPhysicalConsole,
    pyOrStr, initState, List.findIdx?, Pat.isText, Pat.isTimeoutPat,
    Pat.isEofPat, optStr, doSleep, countEv, isLogErrOf, List.filter]
